import Mathlib

/-!
Verification of the ChargePilot-AI ML pipeline against its specification.

The Python source is shallowly embedded: numeric quantities are modelled as
exact rationals (`ℚ`), Python's `round(x, n)` (banker's rounding, round half
to even) is modelled by `pyRound`, and stateful objects (the preprocessor's
`feature_names` attribute) are modelled by explicit state passing.  The
trained regression model is an external oracle at every call site, so its
output (`predicted_consumption` / `predicted_range`) is a parameter of each
embedded function.
-/

/-! ## Rounding (Python `round`) -/

/-- Round half to even on rationals, as Python's builtin `round` does at
integer precision. -/
def roundHalfEven (x : ℚ) : ℤ :=
  let n : ℤ := x.floor
  let frac : ℚ := x - n
  if frac < 1/2 then n
  else if 1/2 < frac then n + 1
  else if n % 2 = 0 then n else n + 1

/-- Python's `round(x, d)` on exact rationals: round half to even at `d`
decimal places. -/
def pyRound (x : ℚ) (d : ℕ) : ℚ := (roundHalfEven (x * 10 ^ d) : ℚ) / 10 ^ d

/-! ## API layer (src/ml-model/api/app.py)

The Flask endpoints `predict_range`, `recommend_charge` and the legacy
`recommend_charging` compute closed-form arithmetic from the request fields
and the model's predicted consumption.  Each is embedded as a pure function
of those quantities; `SAFETY_BUFFER = 0.15`. -/

/-- Result of `POST /api/predict-range` (app.py, `predict_range`).  `success`
records whether the endpoint answered 200 with a payload (the `try` body ran
to completion) rather than the 400 error branch. -/
structure PredictRangeResult where
  success : Bool
  predicted_range_km : ℚ
  max_range_km : ℚ
  consumption_kwh_per_100km : ℚ
  available_energy_kwh : ℚ

/-- Embedding of app.py `predict_range` (lines 117-148) for a non-zero
predicted consumption (float division in the source is total there; no
branch of the handler inspects the sign of the prediction, so the success
payload is always produced). -/
def predict_range (battery_pct battery_capacity predicted_consumption : ℚ) :
    PredictRangeResult :=
  let available_energy_kwh := battery_pct / 100 * battery_capacity
  let predicted_range_km := available_energy_kwh / predicted_consumption
  let safe_range_km := predicted_range_km * (1 - 15/100)
  { success := true
    predicted_range_km := pyRound safe_range_km 2
    max_range_km := pyRound predicted_range_km 2
    consumption_kwh_per_100km := pyRound (predicted_consumption * 100) 2
    available_energy_kwh := pyRound available_energy_kwh 2 }

/-- Energy needed to cover `distance` at consumption `cons`, inflated by the
15% safety buffer: `(distance * consumption) / (1 - 0.15)` (app.py line 167). -/
def energyNeeded (distance cons : ℚ) : ℚ := distance * cons / (1 - 15/100)

/-- Required battery percentage, capped at 100 (app.py line 168). -/
def requiredPct (distance capacity cons : ℚ) : ℚ :=
  min (energyNeeded distance cons / capacity * 100) 100

/-- Percentage points of charge to add (app.py line 169). -/
def chargeNeededPct (distance capacity current_pct cons : ℚ) : ℚ :=
  max 0 (requiredPct distance capacity cons - current_pct)

/-- Energy (kWh) corresponding to the charge to add (app.py line 173). -/
def energyToAdd (distance capacity current_pct cons : ℚ) : ℚ :=
  chargeNeededPct distance capacity current_pct cons / 100 * capacity

/-- Result of `POST /api/recommend-charge` (app.py, `recommend_charge`). -/
structure RecommendChargeResult where
  is_reachable : Bool
  required_battery_pct : ℚ
  charge_needed_pct : ℚ
  estimated_charging_time_minutes : ℚ
  energy_needed_kwh : ℚ
  estimated_cost_inr : ℚ

/-- Embedding of app.py `recommend_charge` (lines 150-189): fixed 50 kW
charger, charging time `energy_to_add / 50 * 60` minutes with no
charging-curve factor, cost at 20 INR/kWh. -/
def recommend_charge (distance capacity current_pct cons : ℚ) :
    RecommendChargeResult :=
  let required_battery_pct := requiredPct distance capacity cons
  let energy_to_add := energyToAdd distance capacity current_pct cons
  let charging_time_minutes := energy_to_add / 50 * 60
  { is_reachable := current_pct ≥ required_battery_pct
    required_battery_pct := pyRound required_battery_pct 1
    charge_needed_pct := pyRound (chargeNeededPct distance capacity current_pct cons) 1
    estimated_charging_time_minutes := pyRound charging_time_minutes 1
    energy_needed_kwh := pyRound (energyNeeded distance cons) 2
    estimated_cost_inr := pyRound (energy_to_add * 20) 2 }

/-- Result of the legacy `POST /recommend-charging` (app.py,
`recommend_charging`). -/
structure RecommendChargingResult where
  current_soc : ℚ
  recommended_target_soc : ℚ
  kwh_to_charge : ℚ
  estimated_time_minutes : ℚ
  estimated_cost : ℚ

/-- Embedding of app.py `recommend_charging` (lines 263-324): charger power
from the request, effective charging speed `power * 0.6` when the required
target percentage exceeds 80 and `power * 0.85` otherwise, cost at
15 INR/kWh. -/
def recommend_charging (distance capacity current_pct charger_power cons : ℚ) :
    RecommendChargingResult :=
  let required_battery_pct := requiredPct distance capacity cons
  let energy_to_add := energyToAdd distance capacity current_pct cons
  let avg_charging_speed :=
    if required_battery_pct > 80 then charger_power * (6/10)
    else charger_power * (85/100)
  let charging_time_minutes := energy_to_add / avg_charging_speed * 60
  { current_soc := current_pct
    recommended_target_soc := pyRound required_battery_pct 1
    kwh_to_charge := pyRound energy_to_add 2
    estimated_time_minutes := pyRound charging_time_minutes 0
    estimated_cost := pyRound (energy_to_add * 15) 0 }

/-- Charging time demanded by the specification's claim, formalised from the
spec wording: `energy_to_add / effective_power * 60` minutes where the
effective charger power is 60% of the rated power when the required target
state of charge exceeds 80% and 85% of the rated power otherwise. -/
def claimChargingTime (rated required_pct energy_to_add : ℚ) : ℚ :=
  energy_to_add / (rated * (if required_pct > 80 then 6/10 else 85/100)) * 60

/-! ## Serving-side predictor (src/ml-model/src/predictor.py)

`EVRangePredictor.predict` routes a one-row frame through the preprocessor
and the loaded model; the model's output `predicted_range` is the oracle
parameter here.  Lines 144-176 compute the returned dictionary. -/

/-- The `soc_per_km` expression of predictor.py line 159:
`current_soc / predicted_range if predicted_range > 0 else 0`. -/
def socPerKm (current_soc predicted_range : ℚ) : ℚ :=
  if predicted_range > 0 then current_soc / predicted_range else 0

/-- Fields of the dictionary returned by `EVRangePredictor.predict`. -/
structure PredictorResult where
  predicted_range_km : ℚ
  safe_range_km : ℚ
  confidence : String
  available_energy_kwh : ℚ
  soc_consumption_per_km : ℚ

/-- Embedding of predictor.py `EVRangePredictor.predict` lines 144-176,
with the model's raw output `predicted_range` as oracle parameter. -/
def predictorPredict (predicted_range battery_capacity_kwh current_soc : ℚ) :
    PredictorResult :=
  { predicted_range_km := pyRound predicted_range 2
    safe_range_km := pyRound (predicted_range * (85/100)) 2
    confidence :=
      if predicted_range > 150 then "high"
      else if predicted_range > 50 then "medium"
      else "low"
    available_energy_kwh := pyRound (battery_capacity_kwh * (current_soc / 100)) 2
    soc_consumption_per_km := pyRound (socPerKm current_soc predicted_range) 3 }

/-! ## Ensemble builder and model selection (src/ml-model/train_advanced.py)

Lines 341-396: the best single model is the top row of the results frame
sorted by test R² descending; `Accuracy (%)` is `test_r2 * 100` (line 307).
When `best_accuracy < 98` an ensemble of the top-3 models is built with
weights `scores / scores.sum()` and promoted iff its test R² strictly
exceeds the best single score. -/

/-- Embedding of `weights = weights / weights.sum()` (train_advanced.py
lines 368-369) applied to the top-scores vector. -/
def ensembleWeights (s : List ℚ) : List ℚ := s.map (fun x => x / s.sum)

/-- Whether the ensemble branch is entered: `best_accuracy < 98` where
`best_accuracy = best_score * 100` (train_advanced.py lines 307, 346, 358). -/
def ensembleBuilt (best_score : ℚ) : Bool := best_score * 100 < 98

/-- Embedding of the selection logic of train_advanced.py lines 358-396:
the selected artifact (its name and its test R²) after the conditional
ensemble promotion.  `best_name`/`best_score` come from the top row of the
sorted results; `ensemble_test_r2` is the ensemble's test R² (only consulted
when the ensemble branch runs). -/
def selectedArtifact (best_name : String) (best_score ensemble_test_r2 : ℚ) :
    String × ℚ :=
  if best_score * 100 < 98 then
    if ensemble_test_r2 > best_score then ("Ensemble", ensemble_test_r2)
    else (best_name, best_score)
  else (best_name, best_score)

/-! ## Feature builder (src/ml-model/src/preprocessor.py)

`EVDataPreprocessor.prepare_features` builds a pandas frame column by
column from the canonical input columns, one-hot encodes `Terrain` and
`Driving_Style` (`pd.get_dummies` emits one indicator column per distinct
observed value, in sorted order), then reconciles against the feature-name
list stored at fit time: missing fit-time columns are zero-filled and the
frame is reindexed to exactly the fit-time names (preprocessor.py lines
88-98), which also discards columns that are not in the fit-time list.

Column names: every generated name is either one of eleven fixed literals,
or `terrain_<v>` / `driving_<v>` for a category value `v`.  Since the two
dummy prefixes are distinct and no fixed literal starts with either prefix,
the name space is embedded as the inductive `ColName`, with constructor
injectivity mirroring string-name injectivity. -/

/-- Feature-column names generated by `prepare_features`.  `terrain v`
stands for the string name `terrain_<v>`, `driving v` for `driving_<v>`. -/
inductive ColName where
  | battery_capacity_kwh
  | current_soc_pct
  | current_soc_normalized
  | avg_speed_kmh
  | temperature_c
  | available_energy_kwh
  | ac_on
  | speed_terrain_highway
  | temp_ac_interaction
  | speed_deviation_from_optimal
  | temp_deviation_from_optimal
  | terrain (v : String)
  | driving (v : String)
deriving DecidableEq, Repr

/-- A row of the canonical cleaned dataframe.  Field values are meaningful
only when the corresponding column is present in the frame (see
`DataFrame`). -/
structure Row where
  battery : ℚ
  soc : ℚ
  speed : ℚ
  temp : ℚ
  terrain : String
  ac : String
  driving : String

/-- A canonical dataframe: which of the canonical columns are present
(pandas column presence is per-frame, not per-row), plus the rows. -/
structure DataFrame where
  hasBattery : Bool
  hasSoC : Bool
  hasSpeed : Bool
  hasTemp : Bool
  hasTerrain : Bool
  hasAC : Bool
  hasDriving : Bool
  rows : List Row

/-- A features frame: ordered list of named numeric columns. -/
abbrev Frame := List (ColName × List ℚ)

/-- Column selection by name (first occurrence), as pandas label lookup. -/
def findCol (c : ColName) : Frame → Option (List ℚ)
  | [] => none
  | p :: rest => if p.1 = c then some p.2 else findCol c rest

/-- Lexicographic comparison of char lists, as Python compares strings by
code points. -/
def charListLt : List Char → List Char → Bool
  | _, [] => false
  | [], _ :: _ => true
  | a :: as, b :: bs => if a < b then true else if b < a then false else charListLt as bs

/-- String comparison by code points (Python string ordering). -/
def strLt (a b : String) : Bool := charListLt a.data b.data

/-- Ordered insertion keeping the list strictly sorted (duplicates dropped);
used to model the sorted distinct category values of `pd.get_dummies`. -/
def insertStr (x : String) : List String → List String
  | [] => [x]
  | y :: t => if x = y then y :: t else if strLt x y then x :: y :: t else y :: insertStr x t

/-- Sorted list of the distinct values of a series, as the column order of
`pd.get_dummies`. -/
def sortedDedup (l : List String) : List String := l.foldr insertStr []

/-- Lower-casing of a cell value, as `.astype(str).str.lower()`. -/
def lowerChars (s : String) : List Char := s.data.map Char.toLower

/-- The `ac_on` indicator of preprocessor.py line 60: 1 iff the lower-cased
`AC_Usage` value is one of `on`, `yes`, `1`, `true`. -/
def acOn (s : String) : ℚ :=
  if lowerChars s ∈ ["on".data, "yes".data, "1".data, "true".data] then 1 else 0

/-- Embedding of the column-building part of `prepare_features`
(preprocessor.py lines 28-86): the features frame before the fit-time
reconciliation, in construction order. -/
def rawFeatures (df : DataFrame) : Frame :=
  (if df.hasBattery then
    [(ColName.battery_capacity_kwh, df.rows.map Row.battery)] else [])
  ++ (if df.hasSoC then
    [(ColName.current_soc_pct, df.rows.map Row.soc),
     (ColName.current_soc_normalized, df.rows.map (fun r => r.soc / 100))] else [])
  ++ (if df.hasSpeed then
    [(ColName.avg_speed_kmh, df.rows.map Row.speed)] else [])
  ++ (if df.hasTemp then
    [(ColName.temperature_c, df.rows.map Row.temp)] else [])
  ++ (if df.hasBattery && df.hasSoC then
    [(ColName.available_energy_kwh, df.rows.map (fun r => r.battery * r.soc / 100))] else [])
  ++ (if df.hasTerrain then
    (sortedDedup (df.rows.map Row.terrain)).map (fun u =>
      (ColName.terrain u, df.rows.map (fun r => if r.terrain = u then (1:ℚ) else 0)))
    else [])
  ++ (if df.hasAC then
    [(ColName.ac_on, df.rows.map (fun r => acOn r.ac))] else [])
  ++ (if df.hasDriving then
    (sortedDedup (df.rows.map Row.driving)).map (fun u =>
      (ColName.driving u, df.rows.map (fun r => if r.driving = u then (1:ℚ) else 0)))
    else [])
  ++ (if df.hasSpeed && (df.hasTerrain && (df.rows.map Row.terrain).contains "Highway") then
    [(ColName.speed_terrain_highway,
      df.rows.map (fun r => r.speed * (if r.terrain = "Highway" then (1:ℚ) else 0)))] else [])
  ++ (if df.hasTemp && df.hasAC then
    [(ColName.temp_ac_interaction, df.rows.map (fun r => r.temp * acOn r.ac))] else [])
  ++ (if df.hasSpeed then
    [(ColName.speed_deviation_from_optimal, df.rows.map (fun r => |r.speed - 60|))] else [])
  ++ (if df.hasTemp then
    [(ColName.temp_deviation_from_optimal, df.rows.map (fun r => |r.temp - 45/2|))] else [])

/-- Embedding of `prepare_features(df, fit)` (preprocessor.py lines 18-100)
without the target extraction: takes the stored `feature_names` state,
returns the updated state and the output frame.  The zero-fill loop (lines
93-95) followed by the reindex `features[self.feature_names]` (line 98) is
the map over the (possibly updated) name list, looking each name up in the
built frame and defaulting to an all-zero column of the frame's row count. -/
def prepare_features (feature_names : List ColName) (fit : Bool) (df : DataFrame) :
    List ColName × Frame :=
  let feats := rawFeatures df
  let names := if fit then feats.map Prod.fst else feature_names
  (names, names.map (fun c =>
    (c, (findCol c feats).getD (List.replicate df.rows.length 0))))

/-- The feature-name list recorded by `fit_transform` (which calls
`prepare_features` with `fit=True` on a fresh preprocessor). -/
def fitNames (df : DataFrame) : List ColName := (prepare_features [] true df).1

/-- The features frame produced by `transform` (which calls
`prepare_features` with `fit=False` under the stored names). -/
def transformFrame (feature_names : List ColName) (df : DataFrame) : Frame :=
  (prepare_features feature_names false df).2

/-! ## Column mapper (src/ml-model/src/clean_real_data.py)

`RealDataCleaner.auto_detect_columns` matches every raw column name
(lower-cased) against an ordered table of regex patterns.  All consumption
patterns are literal segments joined by `.*`, so a pattern is embedded as
its list of literal segments and `re.search` as the ordered-occurrence
check `reSearch`. -/

/-- Remainder of `hay` after the first occurrence of `needle`, or `none` if
`needle` does not occur. -/
def dropAfterFirst (needle : List Char) : List Char → Option (List Char)
  | [] => if needle.isEmpty then some [] else none
  | c :: t =>
    if needle.isPrefixOf (c :: t) then some ((c :: t).drop needle.length)
    else dropAfterFirst needle t

/-- `re.search` for a pattern that is literal segments joined by `.*`:
true iff the segments occur in `hay` in order, without overlap. -/
def reSearch : List (List Char) → List Char → Bool
  | [], _ => true
  | seg :: rest, hay =>
    match dropAfterFirst seg hay with
    | some rem => reSearch rest rem
    | none => false

/-- A pattern, as its literal segments (e.g. `battery.*capacity` is
`["battery", "capacity"]`). -/
abbrev Pat := List String

/-- Whether a pattern matches a (lower-cased) column name. -/
def patMatches (p : Pat) (col : String) : Bool :=
  reSearch (p.map String.data) (lowerChars col)

/-- The consumption-dataset pattern table of clean_real_data.py lines 31-62,
in source order. -/
def consumptionPatterns : List (String × List Pat) :=
  [("Battery_Capacity_kWh",
    [["battery", "capacity"], ["capacity", "kwh"], ["battery", "kwh"],
     ["bat", "cap"], ["kwh"], ["capacity"]]),
   ("Current_SoC_%",
    [["soc"], ["state", "charge"], ["battery", "level"], ["charge", "level"],
     ["battery", "percent"], ["soc", "%"], ["current", "soc"]]),
   ("Avg_Speed_kmh",
    [["speed"], ["avg", "speed"], ["average", "speed"], ["velocity"],
     ["km", "h"], ["kmph"], ["speed", "kmh"]]),
   ("Temperature_C",
    [["temp"], ["temperature"], ["ambient", "temp"], ["temp", "c"],
     ["celsius"]]),
   ("Terrain",
    [["terrain"], ["road", "type"], ["route", "type"], ["driving", "condition"]]),
   ("AC_Usage",
    [["ac"], ["air", "condition"], ["hvac"], ["ac", "usage"], ["climate"]]),
   ("Driving_Style",
    [["driving", "style"], ["drive", "mode"], ["style"], ["mode"],
     ["driving", "behavior"]]),
   ("Range_km",
    [["range"], ["distance"], ["range", "km"], ["actual", "range"],
     ["achieved", "range"], ["km", "range"]])]

/-- Embedding of the per-field loop of `auto_detect_columns`
(clean_real_data.py lines 84-92): iterate the raw columns in order; the
first column whose lower-cased name matches any pattern of the field fixes
the mapping and the remaining columns are skipped (the inner `break` after
an assignment exits the pattern loop, the `if std_name in mapping: break`
exits the column loop). -/
def detectField (pats : List Pat) : List String → Option String
  | [] => none
  | col :: rest =>
    if pats.any (fun p => patMatches p col) then some col
    else detectField pats rest

/-- Embedding of `auto_detect_columns` for the consumption dataset
(clean_real_data.py lines 26-94): builds the mapping field by field in
table order. -/
def auto_detect_columns (columns : List String) : List (String × String) :=
  consumptionPatterns.foldl (fun m fp =>
    match detectField fp.2 columns with
    | some c => m ++ [(fp.1, c)]
    | none => m) []

/-- Formalised from the claim's wording (not from the source): the first
pattern in the field's ordered pattern list that matches any column fixes
the mapping — pattern-major priority. -/
def detectFieldClaim (columns : List String) : List Pat → Option String
  | [] => none
  | p :: rest =>
    match columns.find? (fun c => patMatches p c) with
    | some c => some c
    | none => detectFieldClaim columns rest

/-! ## Concrete example data (used by witnesses and counterexamples) -/

/-- A one-row canonical frame with every column present; fit-time data for
the preprocessor witnesses. -/
def exampleFitDf : DataFrame :=
  { hasBattery := true, hasSoC := true, hasSpeed := true, hasTemp := true
    hasTerrain := true, hasAC := true, hasDriving := true
    rows := [{ battery := 50, soc := 80, speed := 60, temp := 25
               terrain := "City", ac := "Off", driving := "Eco" }] }

/-- A one-row transform-time frame: battery column absent, terrain value
`"Desert"` never observed at fit time. -/
def exampleTransformDf : DataFrame :=
  { hasBattery := false, hasSoC := true, hasSpeed := true, hasTemp := true
    hasTerrain := true, hasAC := true, hasDriving := true
    rows := [{ battery := 0, soc := 40, speed := 80, temp := 30
               terrain := "Desert", ac := "On", driving := "Eco" }] }

/-! ## Helper lemmas: evaluating `pyRound` -/

theorem floor_rat_eq (x : ℚ) (n : ℤ) (h1 : (n:ℚ) ≤ x) (h2 : x < n + 1) :
    x.floor = n := by
  have h : ⌊x⌋ = n := by
    rw [Int.floor_eq_iff]
    exact ⟨h1, h2⟩
  rwa [Rat.floor_def, ← Rat.floor_def'] at h

theorem pyRound_eq_of_lt_half (x : ℚ) (d : ℕ) (n : ℤ)
    (h1 : (n:ℚ) ≤ x * 10 ^ d) (h2 : x * 10 ^ d - n < 1/2) :
    pyRound x d = n / 10 ^ d := by
  unfold pyRound roundHalfEven
  have hf : (x * 10 ^ d).floor = n := floor_rat_eq _ n h1 (by linarith)
  rw [hf]
  simp only [if_pos (by linarith : x * 10 ^ d - (n:ℚ) < 1/2)]

theorem pyRound_eq_of_half_lt (x : ℚ) (d : ℕ) (n : ℤ)
    (h1 : (n:ℚ) ≤ x * 10 ^ d) (h2 : 1/2 < x * 10 ^ d - n) (h3 : x * 10 ^ d < n + 1) :
    pyRound x d = (n + 1) / 10 ^ d := by
  unfold pyRound roundHalfEven
  have hf : (x * 10 ^ d).floor = n := floor_rat_eq _ n h1 h3
  rw [hf]
  rw [if_neg (by linarith : ¬ (x * 10 ^ d - (n:ℚ) < 1/2)),
      if_pos (by linarith : (1:ℚ)/2 < x * 10 ^ d - n)]
  push_cast
  ring

theorem pyRound_zero (d : ℕ) : pyRound 0 d = 0 := by
  rw [pyRound_eq_of_lt_half 0 d 0 (by norm_num) (by norm_num)]
  norm_num

/-! ## Helper lemmas: concrete values of the charge-recommendation math -/

theorem energyNeeded_val : energyNeeded 100 (3/20) = 300/17 := by
  unfold energyNeeded; norm_num

theorem requiredPct_val : requiredPct 100 50 (3/20) = 600/17 := by
  unfold requiredPct
  rw [energyNeeded_val, min_eq_left (by norm_num)]
  norm_num

theorem chargeNeededPct_val : chargeNeededPct 100 50 20 (3/20) = 260/17 := by
  unfold chargeNeededPct
  rw [requiredPct_val, max_eq_right (by norm_num)]
  norm_num

theorem energyToAdd_val : energyToAdd 100 50 20 (3/20) = 130/17 := by
  unfold energyToAdd
  rw [chargeNeededPct_val]
  norm_num

theorem pyRound_eq_self_of_int (x : ℚ) (d : ℕ) (n : ℤ) (h : x * 10 ^ d = n) :
    pyRound x d = x := by
  rw [pyRound_eq_of_lt_half x d n (le_of_eq h.symm) (by rw [h]; norm_num)]
  rw [div_eq_iff (by positivity : (10:ℚ) ^ d ≠ 0), ← h]

/-! ## Claim theorems: ensemble weights and model selection -/

/-- C3: for top-3 test R² scores `s₁ s₂ s₃ ≥ 0` with positive sum, the
weights computed by `weights / weights.sum()` are exactly `sᵢ / Σs`, are
non-negative, and sum to 1 within tolerance `1e-9` (exactly, in exact
arithmetic). -/
theorem ensemble_weights_normalized (s1 s2 s3 : ℚ)
    (h1 : 0 ≤ s1) (h2 : 0 ≤ s2) (h3 : 0 ≤ s3) (hs : 0 < s1 + s2 + s3) :
    ensembleWeights [s1, s2, s3] =
      [s1 / (s1 + s2 + s3), s2 / (s1 + s2 + s3), s3 / (s1 + s2 + s3)]
    ∧ (∀ w ∈ ensembleWeights [s1, s2, s3], 0 ≤ w)
    ∧ |(ensembleWeights [s1, s2, s3]).sum - 1| ≤ 1 / 10 ^ 9 := by
  have hsum : ([s1, s2, s3] : List ℚ).sum = s1 + s2 + s3 := by
    simp only [List.sum_cons, List.sum_nil]
    ring
  have hne : s1 + s2 + s3 ≠ 0 := ne_of_gt hs
  have hsle : (0:ℚ) ≤ s1 + s2 + s3 := le_of_lt hs
  refine ⟨?_, ?_, ?_⟩
  · simp [ensembleWeights, hsum]
  · intro w hw
    simp only [ensembleWeights, hsum, List.map_cons, List.map_nil,
      List.mem_cons, List.not_mem_nil, or_false] at hw
    rcases hw with h | h | h <;> rw [h] <;> exact div_nonneg (by assumption) hsle
  · have hone : (ensembleWeights [s1, s2, s3]).sum = 1 := by
      simp only [ensembleWeights, hsum, List.map_cons, List.map_nil,
        List.sum_cons, List.sum_nil]
      field_simp
      ring
    rw [hone]
    norm_num

/-- Witness for `ensemble_weights_normalized` at scores (1/2, 1/4, 1/4). -/
theorem ensemble_weights_normalized_witness :
    ensembleWeights [1/2, 1/4, 1/4] =
      [(1:ℚ)/2 / (1/2 + 1/4 + 1/4), 1/4 / (1/2 + 1/4 + 1/4), 1/4 / (1/2 + 1/4 + 1/4)]
    ∧ (∀ w ∈ ensembleWeights [(1:ℚ)/2, 1/4, 1/4], 0 ≤ w)
    ∧ |(ensembleWeights [(1:ℚ)/2, 1/4, 1/4]).sum - 1| ≤ 1 / 10 ^ 9 :=
  ensemble_weights_normalized (1/2) (1/4) (1/4)
    (by norm_num) (by norm_num) (by norm_num) (by norm_num)

/-- C4: the ensemble branch runs exactly when the best accuracy
(`best_score * 100`) is below 98; the ensemble is the selected artifact
exactly when its test R² strictly exceeds the best single score (given that
no single model is literally named "Ensemble"); otherwise the best single
model remains selected; and re-evaluating the selection on the same inputs
gives the same artifact (the embedded rule is a pure function). -/
theorem selection_rule (name : String) (s e : ℚ) (hname : name ≠ "Ensemble") :
    (ensembleBuilt s = true ↔ s * 100 < 98)
    ∧ ((selectedArtifact name s e).1 = "Ensemble" ↔ s * 100 < 98 ∧ s < e)
    ∧ (¬ (s * 100 < 98 ∧ s < e) → selectedArtifact name s e = (name, s))
    ∧ selectedArtifact name s e = selectedArtifact name s e := by
  refine ⟨by simp [ensembleBuilt], ?_, ?_, rfl⟩
  · unfold selectedArtifact
    split_ifs with hlt hgt
    · simp only [gt_iff_lt] at hgt
      simp [hlt, hgt]
    · simp only [gt_iff_lt, not_lt] at hgt
      constructor
      · intro h
        exact absurd h hname
      · rintro ⟨-, hse⟩
        exact absurd hse (not_lt.mpr hgt)
    · constructor
      · intro h
        exact absurd h hname
      · rintro ⟨hacc, -⟩
        exact absurd hacc hlt
  · intro hnot
    unfold selectedArtifact
    split_ifs with hlt hgt
    · exact absurd ⟨hlt, by simpa using hgt⟩ hnot
    · rfl
    · rfl

/-- Witness for `selection_rule`: best model "XGBoost" with test R² 0.9 and
ensemble test R² 0.95. -/
theorem selection_rule_witness :
    (ensembleBuilt (9/10) = true ↔ (9:ℚ)/10 * 100 < 98)
    ∧ ((selectedArtifact "XGBoost" (9/10) (95/100)).1 = "Ensemble" ↔
        (9:ℚ)/10 * 100 < 98 ∧ (9:ℚ)/10 < 95/100)
    ∧ (¬ ((9:ℚ)/10 * 100 < 98 ∧ (9:ℚ)/10 < 95/100) →
        selectedArtifact "XGBoost" (9/10) (95/100) = ("XGBoost", 9/10))
    ∧ selectedArtifact "XGBoost" (9/10) (95/100)
        = selectedArtifact "XGBoost" (9/10) (95/100) :=
  selection_rule "XGBoost" (9/10) (95/100) (by decide)

/-! ## Claim theorems: API range prediction and charge recommendation -/

/-- C5 (code-bug evidence): at battery 100%, capacity 50 kWh and a model
output of -0.1 kWh/km, `predict_range` answers with a success payload whose
range is negative (-500 km raw, -425 km after the safety buffer) instead of
signalling an invalid-model-output error as the specification's policy
requires. -/
theorem predict_range_negative_consumption_no_error :
    (predict_range 100 50 (-1/10)).success = true
    ∧ (predict_range 100 50 (-1/10)).predicted_range_km = -425
    ∧ (predict_range 100 50 (-1/10)).max_range_km = -500 := by
  refine ⟨rfl, ?_, ?_⟩
  · show pyRound (100 / 100 * 50 / (-1/10) * (1 - 15/100)) 2 = -425
    have h : (100:ℚ) / 100 * 50 / (-1/10) * (1 - 15/100) = -425 := by norm_num
    rw [h]
    exact pyRound_eq_self_of_int _ 2 (-42500) (by norm_num)
  · show pyRound (100 / 100 * 50 / (-1/10)) 2 = -500
    have h : (100:ℚ) / 100 * 50 / (-1/10) = -500 := by norm_num
    rw [h]
    exact pyRound_eq_self_of_int _ 2 (-50000) (by norm_num)

/-- C6 (amended): the legacy `/recommend-charging` endpoint computes the
charging time as `energy_to_add / (charger_power * factor) * 60` minutes
with `factor = 0.6` when the required target percentage exceeds 80 and
`0.85` otherwise; the primary `/api/recommend-charge` endpoint instead uses
the full fixed 50 kW rated power with no charging-curve factor. -/
theorem charging_time_rule (d cap cur power cons : ℚ) :
    (recommend_charging d cap cur power cons).estimated_time_minutes
      = pyRound (claimChargingTime power (requiredPct d cap cons)
          (energyToAdd d cap cur cons)) 0
    ∧ (recommend_charge d cap cur cons).estimated_charging_time_minutes
      = pyRound (energyToAdd d cap cur cons / 50 * 60) 1 := by
  constructor
  · show pyRound (energyToAdd d cap cur cons /
        (if requiredPct d cap cons > 80 then power * (6/10) else power * (85/100))
        * 60) 0 = _
    have h : energyToAdd d cap cur cons /
        (if requiredPct d cap cons > 80 then power * (6/10) else power * (85/100))
        * 60 = claimChargingTime power (requiredPct d cap cons)
          (energyToAdd d cap cur cons) := by
      unfold claimChargingTime
      split_ifs <;> ring
    rw [h]
  · rfl

/-- C6 counterexample: at distance 100 km, capacity 50 kWh, current charge
20% and consumption 0.15 kWh/km, `/api/recommend-charge` reports 9.2
charging minutes, while the claim's curve-adjusted formula (85% of the
50 kW rated power at this sub-80% target) demands 10.8 minutes. -/
theorem recommend_charge_ignores_charging_curve :
    (recommend_charge 100 50 20 (3/20)).estimated_charging_time_minutes
      ≠ pyRound (claimChargingTime 50 (requiredPct 100 50 (3/20))
          (energyToAdd 100 50 20 (3/20))) 1 := by
  have hL : (recommend_charge 100 50 20 (3/20)).estimated_charging_time_minutes
      = 46/5 := by
    show pyRound (energyToAdd 100 50 20 (3/20) / 50 * 60) 1 = 46/5
    rw [energyToAdd_val]
    have h : (130:ℚ)/17 / 50 * 60 = 156/17 := by norm_num
    rw [h, pyRound_eq_of_half_lt (156/17) 1 91 (by norm_num) (by norm_num) (by norm_num)]
    norm_num
  have hR : pyRound (claimChargingTime 50 (requiredPct 100 50 (3/20))
      (energyToAdd 100 50 20 (3/20))) 1 = 54/5 := by
    unfold claimChargingTime
    rw [requiredPct_val, energyToAdd_val,
      if_neg (by norm_num : ¬ ((600:ℚ)/17 > 80))]
    have h : (130:ℚ)/17 / (50 * (85/100)) * 60 = 3120/289 := by norm_num
    rw [h, pyRound_eq_of_half_lt (3120/289) 1 107 (by norm_num) (by norm_num) (by norm_num)]
    norm_num
  rw [hL, hR]
  norm_num

/-- C7: for distance 100 km, capacity 50 kWh, current charge 20% and
predicted consumption 0.15 kWh/km, `recommend_charge` reports
`energy_needed_kwh = 17.65`, `required_battery_pct = 35.3`,
`charge_needed_pct = 15.3` and `is_reachable = false`. -/
theorem charge_recommendation_scenario :
    (recommend_charge 100 50 20 (3/20)).energy_needed_kwh = 353/20
    ∧ (recommend_charge 100 50 20 (3/20)).required_battery_pct = 353/10
    ∧ (recommend_charge 100 50 20 (3/20)).charge_needed_pct = 153/10
    ∧ (recommend_charge 100 50 20 (3/20)).is_reachable = false := by
  refine ⟨?_, ?_, ?_, ?_⟩
  · show pyRound (energyNeeded 100 (3/20)) 2 = 353/20
    rw [energyNeeded_val,
      pyRound_eq_of_half_lt (300/17) 2 1764 (by norm_num) (by norm_num) (by norm_num)]
    norm_num
  · show pyRound (requiredPct 100 50 (3/20)) 1 = 353/10
    rw [requiredPct_val,
      pyRound_eq_of_half_lt (600/17) 1 352 (by norm_num) (by norm_num) (by norm_num)]
    norm_num
  · show pyRound (chargeNeededPct 100 50 20 (3/20)) 1 = 153/10
    rw [chargeNeededPct_val,
      pyRound_eq_of_half_lt (260/17) 1 152 (by norm_num) (by norm_num) (by norm_num)]
    norm_num
  · show decide ((20:ℚ) ≥ requiredPct 100 50 (3/20)) = false
    rw [requiredPct_val, decide_eq_false_iff_not]
    norm_num

/-! ## Claim theorems: predictor confidence and SoC consumption -/

/-- C8: the predictor's confidence is "high" for predicted range above 150,
"medium" for range in (50, 150], and "low" otherwise; in particular ranges
200, 100 and 30 map to "high", "medium" and "low". -/
theorem confidence_banding (pr cap soc : ℚ) :
    (150 < pr → (predictorPredict pr cap soc).confidence = "high")
    ∧ (50 < pr → pr ≤ 150 → (predictorPredict pr cap soc).confidence = "medium")
    ∧ (pr ≤ 50 → (predictorPredict pr cap soc).confidence = "low")
    ∧ (predictorPredict 200 cap soc).confidence = "high"
    ∧ (predictorPredict 100 cap soc).confidence = "medium"
    ∧ (predictorPredict 30 cap soc).confidence = "low" := by
  refine ⟨?_, ?_, ?_, ?_, ?_, ?_⟩
  · intro h
    show (if pr > 150 then "high" else if pr > 50 then "medium" else "low") = "high"
    rw [if_pos h]
  · intro h1 h2
    show (if pr > 150 then "high" else if pr > 50 then "medium" else "low") = "medium"
    rw [if_neg (not_lt.mpr h2), if_pos h1]
  · intro h
    show (if pr > 150 then "high" else if pr > 50 then "medium" else "low") = "low"
    rw [if_neg (not_lt.mpr (le_trans h (by norm_num))), if_neg (not_lt.mpr h)]
  · show (if (200:ℚ) > 150 then "high" else if (200:ℚ) > 50 then "medium" else "low") = "high"
    rw [if_pos (by norm_num : (200:ℚ) > 150)]
  · show (if (100:ℚ) > 150 then "high" else if (100:ℚ) > 50 then "medium" else "low") = "medium"
    rw [if_neg (by norm_num : ¬ ((100:ℚ) > 150)), if_pos (by norm_num : (100:ℚ) > 50)]
  · show (if (30:ℚ) > 150 then "high" else if (30:ℚ) > 50 then "medium" else "low") = "low"
    rw [if_neg (by norm_num : ¬ ((30:ℚ) > 150)), if_neg (by norm_num : ¬ ((30:ℚ) > 50))]

/-- Witness for `confidence_banding` at predicted range 200 km. -/
theorem confidence_banding_witness :
    (predictorPredict 200 50 80).confidence = "high" :=
  (confidence_banding 200 50 80).1 (by norm_num)

/-- C10: the predictor's `soc_per_km` equals `current_soc / predicted_range`
when the predicted range is strictly positive and 0 otherwise, and the
returned `soc_consumption_per_km` field is that value rounded to 3
decimals (which is exactly 0 in the guarded branch); the division only
happens under the positivity guard. -/
theorem soc_consumption_guarded (soc pr cap : ℚ) :
    (0 < pr → socPerKm soc pr = soc / pr
      ∧ (predictorPredict pr cap soc).soc_consumption_per_km = pyRound (soc / pr) 3)
    ∧ (pr ≤ 0 → socPerKm soc pr = 0
      ∧ (predictorPredict pr cap soc).soc_consumption_per_km = 0) := by
  constructor
  · intro h
    have hs : socPerKm soc pr = soc / pr := by
      unfold socPerKm
      rw [if_pos h]
    refine ⟨hs, ?_⟩
    show pyRound (socPerKm soc pr) 3 = pyRound (soc / pr) 3
    rw [hs]
  · intro h
    have hs : socPerKm soc pr = 0 := by
      unfold socPerKm
      rw [if_neg (not_lt.mpr h)]
    refine ⟨hs, ?_⟩
    show pyRound (socPerKm soc pr) 3 = 0
    rw [hs, pyRound_zero]

/-- Witness for `soc_consumption_guarded` at SoC 80%, predicted range 200. -/
theorem soc_consumption_guarded_witness :
    socPerKm 80 200 = 80 / 200
    ∧ (predictorPredict 200 50 80).soc_consumption_per_km = pyRound (80 / 200) 3 :=
  (soc_consumption_guarded 80 200 50).1 (by norm_num)

/-! ## Claim theorems: column mapper -/

theorem auto_detect_foldl (columns : List String) (l : List (String × List Pat))
    (acc : List (String × String)) :
    l.foldl (fun m fp =>
      match detectField fp.2 columns with
      | some c => m ++ [(fp.1, c)]
      | none => m) acc
    = acc ++ l.filterMap (fun fp => (detectField fp.2 columns).map (fun c => (fp.1, c))) := by
  induction l generalizing acc with
  | nil => simp
  | cons fp rest ih =>
    simp only [List.foldl_cons, List.filterMap_cons]
    cases h : detectField fp.2 columns with
    | none => simp [h, ih]
    | some c => simp [h, ih]

theorem auto_detect_eq (columns : List String) :
    auto_detect_columns columns
      = consumptionPatterns.filterMap
          (fun fp => (detectField fp.2 columns).map (fun c => (fp.1, c))) := by
  unfold auto_detect_columns
  rw [auto_detect_foldl]
  simp

theorem lookup_filterMap_none (columns : List String)
    (l : List (String × List Pat)) (f : String)
    (hf : f ∉ l.map Prod.fst) :
    List.lookup f
      (l.filterMap (fun fp => (detectField fp.2 columns).map (fun c => (fp.1, c))))
      = none := by
  induction l with
  | nil => rfl
  | cons fp rest ih =>
    simp only [List.map_cons, List.mem_cons, not_or] at hf
    have hne : fp.1 ≠ f := fun h => hf.1 h.symm
    simp only [List.filterMap_cons]
    cases h : detectField fp.2 columns with
    | none => exact ih hf.2
    | some c =>
      simp only [Option.map_some', List.lookup_cons, beq_false_of_ne (Ne.symm hne)]
      exact ih hf.2

theorem lookup_filterMap_detect (columns : List String)
    (l : List (String × List Pat)) (f : String) (pats : List Pat)
    (hnd : (l.map Prod.fst).Nodup) (hmem : (f, pats) ∈ l) :
    List.lookup f
      (l.filterMap (fun fp => (detectField fp.2 columns).map (fun c => (fp.1, c))))
      = detectField pats columns := by
  induction l with
  | nil => cases hmem
  | cons fp rest ih =>
    simp only [List.map_cons, List.nodup_cons] at hnd
    rcases List.mem_cons.mp hmem with heq | htail
    · cases heq
      simp only [List.filterMap_cons]
      cases h : detectField pats columns with
      | none => exact lookup_filterMap_none columns rest f hnd.1
      | some c =>
        simp only [Option.map_some', List.lookup_cons, beq_self_eq_true]
    · have hne : fp.1 ≠ f := by
        intro he
        exact hnd.1 (he ▸ List.mem_map.mpr ⟨(f, pats), htail, rfl⟩)
      simp only [List.filterMap_cons]
      cases h : detectField fp.2 columns with
      | none => exact ih hnd.2 htail
      | some c =>
        simp only [Option.map_some', List.lookup_cons, beq_false_of_ne (Ne.symm hne)]
        exact ih hnd.2 htail

theorem keys_filterMap_sublist (columns : List String)
    (l : List (String × List Pat)) :
    ((l.filterMap (fun fp => (detectField fp.2 columns).map (fun c => (fp.1, c)))).map
        Prod.fst).Sublist (l.map Prod.fst) := by
  induction l with
  | nil => simp
  | cons fp rest ih =>
    simp only [List.filterMap_cons, List.map_cons]
    cases h : detectField fp.2 columns with
    | none => exact ih.cons fp.1
    | some c =>
      simp only [Option.map_some', List.map_cons]
      exact ih.cons₂ fp.1

theorem detectField_eq_find (pats : List Pat) (columns : List String) :
    detectField pats columns
      = columns.find? (fun c => pats.any (fun p => patMatches p c)) := by
  induction columns with
  | nil => rfl
  | cons c rest ih =>
    simp only [detectField, List.find?]
    cases h : pats.any (fun p => patMatches p c) <;> simp [h, ih]

theorem consumptionPatterns_keys_nodup :
    (consumptionPatterns.map Prod.fst).Nodup := by decide

/-- C9 (amended): the column mapper is column-major, not pattern-major: for
every canonical field of the consumption pattern table, the mapped raw
column is the first column (in column order) whose lower-cased name matches
any of the field's patterns; a field with no matching column is absent from
the mapping; and each field occurs at most once in the mapping. -/
theorem column_mapper_first_column_wins (columns : List String) (f : String)
    (pats : List Pat) (hmem : (f, pats) ∈ consumptionPatterns) :
    List.lookup f (auto_detect_columns columns) = detectField pats columns
    ∧ detectField pats columns
        = columns.find? (fun c => pats.any (fun p => patMatches p c))
    ∧ ((auto_detect_columns columns).map Prod.fst).Nodup := by
  refine ⟨?_, detectField_eq_find pats columns, ?_⟩
  · rw [auto_detect_eq]
    exact lookup_filterMap_detect columns consumptionPatterns f pats
      consumptionPatterns_keys_nodup hmem
  · rw [auto_detect_eq]
    exact (keys_filterMap_sublist columns consumptionPatterns).nodup
      consumptionPatterns_keys_nodup

/-- Witness for `column_mapper_first_column_wins`: the battery-capacity
field over the concrete column list `["kwh_total", "battery capacity"]`. -/
theorem column_mapper_first_column_wins_witness :
    List.lookup "Battery_Capacity_kWh"
        (auto_detect_columns ["kwh_total", "battery capacity"])
      = detectField
          [["battery", "capacity"], ["capacity", "kwh"], ["battery", "kwh"],
           ["bat", "cap"], ["kwh"], ["capacity"]]
          ["kwh_total", "battery capacity"]
    ∧ detectField
          [["battery", "capacity"], ["capacity", "kwh"], ["battery", "kwh"],
           ["bat", "cap"], ["kwh"], ["capacity"]]
          ["kwh_total", "battery capacity"]
        = (["kwh_total", "battery capacity"] : List String).find?
            (fun c =>
              ([["battery", "capacity"], ["capacity", "kwh"], ["battery", "kwh"],
                ["bat", "cap"], ["kwh"], ["capacity"]] : List Pat).any
                (fun p => patMatches p c))
    ∧ ((auto_detect_columns ["kwh_total", "battery capacity"]).map Prod.fst).Nodup :=
  column_mapper_first_column_wins ["kwh_total", "battery capacity"]
    "Battery_Capacity_kWh"
    [["battery", "capacity"], ["capacity", "kwh"], ["battery", "kwh"],
     ["bat", "cap"], ["kwh"], ["capacity"]]
    (by decide)

/-- C9 counterexample: on the raw columns `["kwh_total", "battery capacity"]`
the code (column-major) maps the battery-capacity field to `"kwh_total"`
(first column, matched by the fifth pattern `kwh`), while the claim's
pattern-major rule demands `"battery capacity"` (matched by the first
pattern `battery.*capacity`). -/
theorem column_mapper_not_pattern_major :
    List.lookup "Battery_Capacity_kWh"
        (auto_detect_columns ["kwh_total", "battery capacity"])
      = some "kwh_total"
    ∧ detectFieldClaim ["kwh_total", "battery capacity"]
        [["battery", "capacity"], ["capacity", "kwh"], ["battery", "kwh"],
         ["bat", "cap"], ["kwh"], ["capacity"]]
      = some "battery capacity"
    ∧ ("kwh_total" : String) ≠ "battery capacity" :=
  ⟨by decide, by decide, by decide⟩

/-! ## Claim theorems: feature builder -/

theorem findCol_map_self (g : ColName → List ℚ) (c : ColName) (l : List ColName)
    (hc : c ∈ l) :
    findCol c (l.map (fun x => (x, g x))) = some (g c) := by
  induction l with
  | nil => cases hc
  | cons x rest ih =>
    simp only [List.map_cons, findCol]
    by_cases hx : x = c
    · rw [if_pos hx, hx]
    · rw [if_neg hx]
      exact ih ((List.mem_cons.mp hc).resolve_left (fun h => hx h.symm))

theorem map_fst_pairing (g : ColName → List ℚ) (l : List ColName) :
    (l.map (fun x => (x, g x))).map Prod.fst = l := by
  induction l with
  | nil => rfl
  | cons x rest ih => simp only [List.map_cons, ih]

theorem findCol_append (c : ColName) (a b : Frame) :
    findCol c (a ++ b) = (findCol c a).orElse (fun _ => findCol c b) := by
  induction a with
  | nil => rfl
  | cons p rest ih =>
    simp only [List.cons_append, findCol]
    by_cases h : p.1 = c
    · rw [if_pos h, if_pos h]
      rfl
    · rw [if_neg h, if_neg h]
      exact ih

theorem findCol_eq_none (c : ColName) (fr : Frame) (h : ∀ p ∈ fr, p.1 ≠ c) :
    findCol c fr = none := by
  induction fr with
  | nil => rfl
  | cons p rest ih =>
    simp only [findCol]
    rw [if_neg (h p (List.mem_cons_self p rest))]
    exact ih (fun q hq => h q (List.mem_cons.mpr (Or.inr hq)))

theorem findCol_if_of_ne (c : ColName) (b : Bool) (entries : Frame)
    (h : ∀ p ∈ entries, p.1 ≠ c) :
    findCol c (if b then entries else []) = none := by
  cases b
  · rfl
  · exact findCol_eq_none c entries h

theorem findCol_map_key {mk : String → ColName}
    (hinj : ∀ a b, mk a = mk b → a = b) (u : String) (cats : List String)
    (vals : String → List ℚ) :
    findCol (mk u) (cats.map (fun w => (mk w, vals w)))
      = if u ∈ cats then some (vals u) else none := by
  induction cats with
  | nil => rfl
  | cons w rest ih =>
    simp only [List.map_cons, findCol]
    by_cases hw : w = u
    · subst hw
      rw [if_pos rfl, if_pos (List.mem_cons_self w rest)]
    · rw [if_neg (fun he => hw (hinj w u he)), ih]
      by_cases hu : u ∈ rest
      · rw [if_pos hu, if_pos (List.mem_cons.mpr (Or.inr hu))]
      · rw [if_neg hu,
          if_neg (fun hmem => ((List.mem_cons.mp hmem).elim (fun h => hw h.symm) hu))]

theorem findCol_map_ne {mk : String → ColName} (c : ColName)
    (h : ∀ w, mk w ≠ c) (b : Bool) (cats : List String)
    (vals : String → List ℚ) :
    findCol c (if b then cats.map (fun w => (mk w, vals w)) else []) = none := by
  cases b
  · rfl
  · exact findCol_eq_none c _ (by
      intro p hp
      obtain ⟨w, -, rfl⟩ := List.mem_map.mp hp
      exact h w)

theorem mem_keys_iff_findCol (c : ColName) (fr : Frame) :
    c ∈ fr.map Prod.fst ↔ (findCol c fr).isSome := by
  induction fr with
  | nil => simp [findCol]
  | cons p rest ih =>
    simp only [List.map_cons, List.mem_cons, findCol]
    by_cases h : p.1 = c
    · simp [h]
    · simp only [if_neg h, ← ih]
      constructor
      · intro hor
        exact hor.resolve_left (fun he => h he.symm)
      · exact Or.inr

theorem none_orElse_col (f : Unit → Option (List ℚ)) :
    (none : Option (List ℚ)).orElse f = f () := rfl

theorem orElse_none_col (x : Option (List ℚ)) :
    x.orElse (fun _ => none) = x := by cases x <;> rfl

theorem findCol_terrain_raw (df : DataFrame) (u : String) :
    findCol (ColName.terrain u) (rawFeatures df)
      = if df.hasTerrain ∧ u ∈ sortedDedup (df.rows.map Row.terrain)
        then some (df.rows.map (fun r => if r.terrain = u then (1:ℚ) else 0))
        else none := by
  have h1 : findCol (ColName.terrain u)
      (if df.hasBattery then [(ColName.battery_capacity_kwh, df.rows.map Row.battery)] else [])
      = none := findCol_if_of_ne _ _ _ (by simp)
  have h2 : findCol (ColName.terrain u)
      (if df.hasSoC then
        [(ColName.current_soc_pct, df.rows.map Row.soc),
         (ColName.current_soc_normalized, df.rows.map (fun r => r.soc / 100))] else [])
      = none := findCol_if_of_ne _ _ _ (by simp)
  have h3 : findCol (ColName.terrain u)
      (if df.hasSpeed then [(ColName.avg_speed_kmh, df.rows.map Row.speed)] else [])
      = none := findCol_if_of_ne _ _ _ (by simp)
  have h4 : findCol (ColName.terrain u)
      (if df.hasTemp then [(ColName.temperature_c, df.rows.map Row.temp)] else [])
      = none := findCol_if_of_ne _ _ _ (by simp)
  have h5 : findCol (ColName.terrain u)
      (if df.hasBattery && df.hasSoC then
        [(ColName.available_energy_kwh, df.rows.map (fun r => r.battery * r.soc / 100))] else [])
      = none := findCol_if_of_ne _ _ _ (by simp)
  have h7 : findCol (ColName.terrain u)
      (if df.hasAC then [(ColName.ac_on, df.rows.map (fun r => acOn r.ac))] else [])
      = none := findCol_if_of_ne _ _ _ (by simp)
  have h8 : findCol (ColName.terrain u)
      (if df.hasDriving then
        (sortedDedup (df.rows.map Row.driving)).map (fun w =>
          (ColName.driving w, df.rows.map (fun r => if r.driving = w then (1:ℚ) else 0)))
        else [])
      = none := findCol_map_ne _ (fun w => by simp) _ _ _
  have h9 : findCol (ColName.terrain u)
      (if df.hasSpeed && (df.hasTerrain && (df.rows.map Row.terrain).contains "Highway") then
        [(ColName.speed_terrain_highway,
          df.rows.map (fun r => r.speed * (if r.terrain = "Highway" then (1:ℚ) else 0)))] else [])
      = none := findCol_if_of_ne _ _ _ (by simp)
  have h10 : findCol (ColName.terrain u)
      (if df.hasTemp && df.hasAC then
        [(ColName.temp_ac_interaction, df.rows.map (fun r => r.temp * acOn r.ac))] else [])
      = none := findCol_if_of_ne _ _ _ (by simp)
  have h11 : findCol (ColName.terrain u)
      (if df.hasSpeed then
        [(ColName.speed_deviation_from_optimal, df.rows.map (fun r => |r.speed - 60|))] else [])
      = none := findCol_if_of_ne _ _ _ (by simp)
  have h12 : findCol (ColName.terrain u)
      (if df.hasTemp then
        [(ColName.temp_deviation_from_optimal, df.rows.map (fun r => |r.temp - 45/2|))] else [])
      = none := findCol_if_of_ne _ _ _ (by simp)
  unfold rawFeatures
  simp only [findCol_append, h1, h2, h3, h4, h5, h7, h8, h9, h10, h11, h12,
    none_orElse_col, orElse_none_col]
  cases hdf : df.hasTerrain
  · simp [hdf, findCol]
  · simp only [hdf, if_true, eq_self_iff_true, true_and]
    rw [findCol_map_key (fun a b h => ColName.terrain.inj h) u _ _]

theorem findCol_driving_raw (df : DataFrame) (u : String) :
    findCol (ColName.driving u) (rawFeatures df)
      = if df.hasDriving ∧ u ∈ sortedDedup (df.rows.map Row.driving)
        then some (df.rows.map (fun r => if r.driving = u then (1:ℚ) else 0))
        else none := by
  have h1 : findCol (ColName.driving u)
      (if df.hasBattery then [(ColName.battery_capacity_kwh, df.rows.map Row.battery)] else [])
      = none := findCol_if_of_ne _ _ _ (by simp)
  have h2 : findCol (ColName.driving u)
      (if df.hasSoC then
        [(ColName.current_soc_pct, df.rows.map Row.soc),
         (ColName.current_soc_normalized, df.rows.map (fun r => r.soc / 100))] else [])
      = none := findCol_if_of_ne _ _ _ (by simp)
  have h3 : findCol (ColName.driving u)
      (if df.hasSpeed then [(ColName.avg_speed_kmh, df.rows.map Row.speed)] else [])
      = none := findCol_if_of_ne _ _ _ (by simp)
  have h4 : findCol (ColName.driving u)
      (if df.hasTemp then [(ColName.temperature_c, df.rows.map Row.temp)] else [])
      = none := findCol_if_of_ne _ _ _ (by simp)
  have h5 : findCol (ColName.driving u)
      (if df.hasBattery && df.hasSoC then
        [(ColName.available_energy_kwh, df.rows.map (fun r => r.battery * r.soc / 100))] else [])
      = none := findCol_if_of_ne _ _ _ (by simp)
  have h6 : findCol (ColName.driving u)
      (if df.hasTerrain then
        (sortedDedup (df.rows.map Row.terrain)).map (fun w =>
          (ColName.terrain w, df.rows.map (fun r => if r.terrain = w then (1:ℚ) else 0)))
        else [])
      = none := findCol_map_ne _ (fun w => by simp) _ _ _
  have h7 : findCol (ColName.driving u)
      (if df.hasAC then [(ColName.ac_on, df.rows.map (fun r => acOn r.ac))] else [])
      = none := findCol_if_of_ne _ _ _ (by simp)
  have h9 : findCol (ColName.driving u)
      (if df.hasSpeed && (df.hasTerrain && (df.rows.map Row.terrain).contains "Highway") then
        [(ColName.speed_terrain_highway,
          df.rows.map (fun r => r.speed * (if r.terrain = "Highway" then (1:ℚ) else 0)))] else [])
      = none := findCol_if_of_ne _ _ _ (by simp)
  have h10 : findCol (ColName.driving u)
      (if df.hasTemp && df.hasAC then
        [(ColName.temp_ac_interaction, df.rows.map (fun r => r.temp * acOn r.ac))] else [])
      = none := findCol_if_of_ne _ _ _ (by simp)
  have h11 : findCol (ColName.driving u)
      (if df.hasSpeed then
        [(ColName.speed_deviation_from_optimal, df.rows.map (fun r => |r.speed - 60|))] else [])
      = none := findCol_if_of_ne _ _ _ (by simp)
  have h12 : findCol (ColName.driving u)
      (if df.hasTemp then
        [(ColName.temp_deviation_from_optimal, df.rows.map (fun r => |r.temp - 45/2|))] else [])
      = none := findCol_if_of_ne _ _ _ (by simp)
  unfold rawFeatures
  simp only [findCol_append, h1, h2, h3, h4, h5, h6, h7, h9, h10, h11, h12,
    none_orElse_col, orElse_none_col]
  cases hdf : df.hasDriving
  · simp [hdf, findCol]
  · simp only [hdf, if_true, eq_self_iff_true, true_and]
    rw [findCol_map_key (fun a b h => ColName.driving.inj h) u _ _]

/-- C1: after `fit_transform` on `df0` has recorded the feature names, every
subsequent `transform` — on any dataframe `df`, whatever its rows — returns
a frame whose column names are exactly the fit-time names in the fit-time
order (columns built from `df` that are not in the fit-time list are
discarded by the reindexing), and every fit-time column that `df` does not
produce is filled with an all-zero column. -/
theorem transform_reproduces_fit_columns (df0 df : DataFrame) :
    (transformFrame (fitNames df0) df).map Prod.fst = fitNames df0
    ∧ (∀ c ∈ fitNames df0, findCol c (rawFeatures df) = none →
        findCol c (transformFrame (fitNames df0) df)
          = some (List.replicate df.rows.length 0)) := by
  constructor
  · show ((fitNames df0).map (fun c =>
        (c, (findCol c (rawFeatures df)).getD (List.replicate df.rows.length 0)))).map
          Prod.fst = fitNames df0
    exact map_fst_pairing _ _
  · intro c hc hnone
    show findCol c ((fitNames df0).map (fun x =>
        (x, (findCol x (rawFeatures df)).getD (List.replicate df.rows.length 0))))
      = some (List.replicate df.rows.length 0)
    rw [findCol_map_self _ c _ hc, hnone]
    rfl

/-- Witness for `transform_reproduces_fit_columns`: fitting on the full
one-row frame and transforming a frame with no battery column zero-fills
the battery feature. -/
theorem transform_reproduces_fit_columns_witness :
    findCol ColName.battery_capacity_kwh
        (transformFrame (fitNames exampleFitDf) exampleTransformDf)
      = some (List.replicate exampleTransformDf.rows.length 0) :=
  (transform_reproduces_fit_columns exampleFitDf exampleTransformDf).2
    ColName.battery_capacity_kwh (by decide) (by decide)

/-- C2: a `Terrain` (resp. `Driving_Style`) category value at transform time
that was never observed at fit time leaves every fit-time terrain (resp.
driving) indicator column zero at that row, and the transform still
produces each such column (no error). -/
theorem unseen_category_columns_zero (df0 df : DataFrame) (i : ℕ)
    (hi : i < df.rows.length) :
    (∀ u : String, ColName.terrain u ∈ fitNames df0 →
      ColName.terrain (df.rows[i].terrain) ∉ fitNames df0 →
      ∃ col, findCol (ColName.terrain u) (transformFrame (fitNames df0) df) = some col
        ∧ col[i]? = some 0)
    ∧ (∀ u : String, ColName.driving u ∈ fitNames df0 →
      ColName.driving (df.rows[i].driving) ∉ fitNames df0 →
      ∃ col, findCol (ColName.driving u) (transformFrame (fitNames df0) df) = some col
        ∧ col[i]? = some 0) := by
  constructor
  · intro u hu hunseen
    have hcol : findCol (ColName.terrain u) (transformFrame (fitNames df0) df)
        = some ((findCol (ColName.terrain u) (rawFeatures df)).getD
            (List.replicate df.rows.length 0)) := by
      show findCol (ColName.terrain u) ((fitNames df0).map (fun x =>
          (x, (findCol x (rawFeatures df)).getD (List.replicate df.rows.length 0)))) = _
      exact findCol_map_self _ _ _ hu
    refine ⟨_, hcol, ?_⟩
    have hne : df.rows[i].terrain ≠ u := by
      intro he
      exact hunseen (by rw [he]; exact hu)
    rw [findCol_terrain_raw]
    split_ifs with hcond
    · simp only [Option.getD_some]
      rw [List.getElem?_map, List.getElem?_eq_getElem hi]
      simp only [Option.map_some']
      rw [if_neg hne]
    · simp only [Option.getD_none]
      rw [List.getElem?_replicate, if_pos hi]
  · intro u hu hunseen
    have hcol : findCol (ColName.driving u) (transformFrame (fitNames df0) df)
        = some ((findCol (ColName.driving u) (rawFeatures df)).getD
            (List.replicate df.rows.length 0)) := by
      show findCol (ColName.driving u) ((fitNames df0).map (fun x =>
          (x, (findCol x (rawFeatures df)).getD (List.replicate df.rows.length 0)))) = _
      exact findCol_map_self _ _ _ hu
    refine ⟨_, hcol, ?_⟩
    have hne : df.rows[i].driving ≠ u := by
      intro he
      exact hunseen (by rw [he]; exact hu)
    rw [findCol_driving_raw]
    split_ifs with hcond
    · simp only [Option.getD_some]
      rw [List.getElem?_map, List.getElem?_eq_getElem hi]
      simp only [Option.map_some']
      rw [if_neg hne]
    · simp only [Option.getD_none]
      rw [List.getElem?_replicate, if_pos hi]

/-- Witness for `unseen_category_columns_zero`: fitting on terrain "City"
and transforming a row with the unseen terrain "Desert" leaves the
`terrain_City` indicator column at zero for that row. -/
theorem unseen_category_columns_zero_witness :
    ∃ col, findCol (ColName.terrain "City")
        (transformFrame (fitNames exampleFitDf) exampleTransformDf) = some col
      ∧ col[(0:ℕ)]? = some (0:ℚ) :=
  (unseen_category_columns_zero exampleFitDf exampleTransformDf 0 (by decide)).1
    "City" (by decide) (by decide)
